import Mathlib

/-!
A shallow embedding of `src/traceroute.py` (class `Tracer`).

The program's interactions with the outside world — name resolution
(`socket.gethostbyname`), the per-iteration ICMP receiving socket
(`create_receiver`: bind outcome and `recvfrom` outcome), the wall clock
(`time.time()`) and the GeoIP database (`geoip2.database.Reader.city`) —
are modelled as an oracle record `Env`, indexed by the 1-based loop
iteration number where the code consults them once per iteration.
Wall-clock readings are idealised as rationals (Python uses floats);
`round(x, 2)` is modelled by `pyRound2`, rational round-half-even.
-/

/-- Outcome of `self.geoip_reader.city(ip)` as observed by `Tracer.get_geoip`
(src/traceroute.py lines 126-136).  A successful lookup carries the optional
`city` name together with the rendered text of the `country`, `latitude` and
`longitude` fields (the Python code interpolates them into an f-string, so
only their rendered text matters here); the two failure modes are
`geoip2.errors.AddressNotFoundError` and any other exception, whose rendered
message is `msg`. -/
inductive CityResult where
  | ok (city : Option String) (country latitude longitude : String)
  | addressNotFound
  | otherError (msg : String)
  deriving Repr, DecidableEq, Inhabited

/-- `Tracer.get_geoip` (src/traceroute.py lines 122-136), with the
`geoip2.database.Reader.city` lookup abstracted as `cityDb`.  Mirrors the
Python: on success it renders `f"{city}, {country} (Lat: ..., Lon: ...)"`
when `city` is truthy (non-`None` and non-empty) and the country-only form
otherwise; `AddressNotFoundError` yields the fixed unknown-location string;
any other exception is caught and rendered into an error string.  It is a
total function into `String`: no exception escapes. -/
def get_geoip (cityDb : String → CityResult) (ip : String) : String :=
  match cityDb ip with
  | CityResult.ok city country latitude longitude =>
      match city with
      | some c =>
          if c = "" then s!"{country} (Lat: {latitude}, Lon: {longitude})"
          else s!"{c}, {country} (Lat: {latitude}, Lon: {longitude})"
      | none => s!"{country} (Lat: {latitude}, Lon: {longitude})"
  | CityResult.addressNotFound => "Localização desconhecida"
  | CityResult.otherError e => s!"Erro ao obter localização: {e}"

/-- Oracle for everything `Tracer.run` observes from the outside world.
Per-iteration fields are indexed by the 1-based iteration number of the
`while True` loop (src/traceroute.py lines 56-84). -/
structure Env where
  /-- `socket.gethostbyname` (line 44): `none` models `socket.error`. -/
  gethostbyname : String → Option String
  /-- Whether `s.bind(('', self.port))` in `create_receiver` (line 101)
  succeeds at iteration `k`; `false` models `socket.error` from `bind`. -/
  bindOk : Nat → Bool
  /-- Outcome of `receiver.recvfrom(1024)` (line 64) at iteration `k`:
  `Except.ok a` is a datagram whose source address `addr[0]` is `a`;
  `Except.error ()` is any `socket.error`, including the 5-second
  `SO_RCVTIMEO` timeout configured in `create_receiver` (lines 97-98). -/
  recv : Nat → Except Unit String
  /-- `time.time()` read at line 57 of iteration `k`. -/
  startTime : Nat → ℚ
  /-- `time.time()` read at line 65 of iteration `k` (only reached when
  `recvfrom` succeeded). -/
  endTime : Nat → ℚ
  /-- The GeoIP database behind `self.geoip_reader.city` (line 127). -/
  city : String → CityResult

/-- The `Tracer` object state (src/traceroute.py lines 10-24). -/
structure Tracer where
  dst : String
  hops : Int
  ttl : Int
  port : Nat
  deriving Repr, DecidableEq, Inhabited

/-- `Tracer.__init__` (src/traceroute.py lines 10-24): stores `dst` and
`hops`, sets `self.ttl = 1`, and picks the identification port once via
`random.choice(range(33434, 33535))`; the random draw is a parameter here.
The GeoIP reader construction (lines 27-32) is part of `Env.city`. -/
def Tracer.init (dst : String) (hops : Int) (port : Nat) : Tracer :=
  { dst := dst, hops := hops, ttl := 1, port := port }

/-- Python's `round(x, 2)` idealised over ℚ: round-half-even at two decimal
places (src/traceroute.py line 73 applies it to `(end_time - start_time) *
1000`). -/
def pyRound2 (q : ℚ) : ℚ :=
  let s := q * 100
  let f : ℤ := Rat.floor s
  let r : ℤ :=
    if s - (f : ℚ) < 1 / 2 then f
    else if 1 / 2 < s - (f : ℚ) then f + 1
    else if f % 2 = 0 then f else f + 1
  (r : ℚ) / 100

/-- The `addr` captured at iteration `k`: `addr = None; try: data, addr =
receiver.recvfrom(1024) ... except socket.error: pass` (src/traceroute.py
lines 62-67).  On any `socket.error` (timeout included) `addr` stays `None`. -/
def captureAt (env : Env) (k : Nat) : Option String :=
  match env.recv k with
  | Except.ok a => some a
  | Except.error _ => none

/-- One emitted hop-result line.  `reply ttl ip timeCost location` models
`print('{:<4} {} {} ms {}'.format(self.ttl, addr[0], time_cost, location))`
(line 75); `noReply ttl` models `print('{:<4} *'.format(self.ttl))`
(line 79). -/
inductive HopLine where
  | reply (ttl : Int) (ip : String) (timeCost : ℚ) (location : String)
  | noReply (ttl : Int)
  deriving Repr, DecidableEq, Inhabited

/-- The TTL printed on a hop line. -/
def HopLine.ttlOf : HopLine → Int
  | HopLine.reply ttl _ _ _ => ttl
  | HopLine.noReply ttl => ttl

/-- The address printed on a hop line, if any. -/
def HopLine.addrOf : HopLine → Option String
  | HopLine.reply _ ip _ _ => some ip
  | HopLine.noReply _ => none

/-- The round-trip time printed on a hop line, if any. -/
def HopLine.rttOf : HopLine → Option ℚ
  | HopLine.reply _ _ c _ => some c
  | HopLine.noReply _ => none

/-- The location text printed on a hop line, if any. -/
def HopLine.locOf : HopLine → Option String
  | HopLine.reply _ _ _ l => some l
  | HopLine.noReply _ => none

/-- Observable record of one iteration of the `while True` loop
(src/traceroute.py lines 56-79), entered with the bind at line 101 having
succeeded.  `bindPort` is the port the receiving socket was bound to;
`receiverId`/`senderId` identify the freshly created socket objects of this
iteration (the iteration number, since `create_receiver`/`create_sender`
construct new sockets each time); `ttlSet` is the `IP_TTL` value set on the
sender (line 118); `sentDest` is the `(self.dst, self.port)` pair passed to
`sender.sendto` (line 60); `captured` is the `addr[0]` captured from
`recvfrom`, if any; `receiverClosed`/`senderClosed` record the `finally`
block (lines 68-70), which closes both sockets on every path; `line` is the
hop-result line printed for this iteration. -/
structure Iter where
  startTime : ℚ
  bindPort : Nat
  receiverId : Nat
  senderId : Nat
  ttlSet : Int
  sentDest : String × Nat
  captured : Option String
  receiverClosed : Bool
  senderClosed : Bool
  line : HopLine
  deriving Repr, DecidableEq, Inhabited

/-- The body of one iteration of the loop in `Tracer.run`
(src/traceroute.py lines 56-79), at iteration number `k` with current TTL
`ttl`.  Translates lines 57-79: read the start time, create the receiver
(bound to `('', self.port)`) and the sender (with `IP_TTL = self.ttl`),
`sendto(b'', (self.dst, self.port))`, attempt one `recvfrom` (any
`socket.error` leaves `addr = None`), close both sockets in the `finally`
block, then build the printed line: a reply line with
`round((end_time - start_time) * 1000, 2)` and `self.get_geoip(addr[0])`
when an address was captured, else the `*` line. -/
def iteration (t : Tracer) (env : Env) (k : Nat) (ttl : Int) : Iter :=
  let start_time := env.startTime k
  let addr := captureAt env k
  let line :=
    match addr with
    | some a =>
        HopLine.reply ttl a (pyRound2 ((env.endTime k - start_time) * 1000))
          (get_geoip env.city a)
    | none => HopLine.noReply ttl
  { startTime := start_time
    bindPort := t.port
    receiverId := k
    senderId := k
    ttlSet := ttl
    sentDest := (t.dst, t.port)
    captured := addr
    receiverClosed := true
    senderClosed := true
    line := line }

/-- Terminal state of the probing loop.  `destinationReached` is the
`break` at line 77 (`addr[0] == dst_ip`); `hopLimitExhausted` is the
`break` at line 84 (`self.ttl > self.hops` after the increment);
`bindError` models the uncaught `IOError` raised by `create_receiver`
(line 103) propagating out of the loop and aborting the run. -/
inductive Terminal where
  | destinationReached
  | hopLimitExhausted
  | bindError
  deriving Repr, DecidableEq, Inhabited

/-- The `while True` loop of `Tracer.run` (src/traceroute.py lines 56-84),
as a fuel-indexed recursion: iteration number `k`, current TTL `ttl`.
Each iteration first attempts the receiver bind (a failure raises out of
the loop: `bindError`, nothing emitted for that iteration); then runs
`iteration`; if an address was captured and equals `dst_ip` the loop breaks
right after printing (line 77); otherwise `self.ttl += 1` and the loop
breaks when `self.ttl > self.hops` (lines 81-84).  `Tracer.run` supplies
enough fuel that the fuel-exhaustion base case is never reached. -/
def runLoop (t : Tracer) (env : Env) (dst_ip : String) :
    Nat → Int → Nat → List Iter × Terminal
  | 0, _, _ => ([], Terminal.hopLimitExhausted)
  | fuel + 1, ttl, k =>
      if env.bindOk k then
        let it := iteration t env k ttl
        if it.captured = some dst_ip then
          ([it], Terminal.destinationReached)
        else if ttl + 1 > t.hops then
          ([it], Terminal.hopLimitExhausted)
        else
          (it :: (runLoop t env dst_ip fuel (ttl + 1) (k + 1)).1,
            (runLoop t env dst_ip fuel (ttl + 1) (k + 1)).2)
      else ([], Terminal.bindError)

/-- The banner `'traceroute to {} ({}), {} hops max'` printed at line 54. -/
def Tracer.banner (t : Tracer) (dst_ip : String) : String :=
  let d := t.dst
  let h := t.hops
  s!"traceroute to {d} ({dst_ip}), {h} hops max"

/-- The observable outcome of a completed `Tracer.run` call: the resolved
destination address, the banner line, the per-iteration records in order,
and the terminal state of the loop. -/
structure RunResult where
  dst_ip : String
  banner : String
  iters : List Iter
  terminal : Terminal
  deriving Repr, DecidableEq, Inhabited

/-- `Tracer.run` (src/traceroute.py lines 34-84): resolve `self.dst` once
via `gethostbyname` (an error raises `IOError`, modelled as `Except.error`),
print the banner, then run the probing loop starting from `self.ttl` at
iteration number 1.  The fuel `max t.hops.toNat 1` bounds the number of
iterations the loop can perform (TTL increments by one each iteration and
the loop stops once it exceeds `t.hops`, or after the first iteration when
`t.hops < 1`), so the loop never hits the fuel-exhaustion case. -/
def Tracer.run (t : Tracer) (env : Env) : Except String RunResult :=
  match env.gethostbyname t.dst with
  | none => Except.error ("Não foi possível encontrar o destino " ++ t.dst)
  | some dst_ip =>
      let L := runLoop t env dst_ip (max t.hops.toNat 1) t.ttl 1
      Except.ok
        { dst_ip := dst_ip
          banner := t.banner dst_ip
          iters := L.1
          terminal := L.2 }

/-- The geolocation-independent skeleton of a run: resolved address,
terminal state, and the TTL and captured address of every iteration. -/
def RunResult.skeleton (r : RunResult) :
    String × Terminal × List (Int × Option String) :=
  (r.dst_ip, r.terminal, r.iters.map fun it => (it.ttlSet, it.captured))

/-! ### Concrete sessions used as witnesses -/

/-- A session probing `example.test` with hop limit 3. -/
def tW : Tracer := Tracer.init "example.test" 3 33434

/-- The same destination with hop limit 0. -/
def tW0 : Tracer := Tracer.init "example.test" 0 33434

/-- An environment where `example.test` resolves to `93.184.216.34`, every
bind succeeds, and every `recvfrom` times out. -/
def envW : Env :=
  { gethostbyname := fun s => if s = "example.test" then some "93.184.216.34" else none
    bindOk := fun _ => true
    recv := fun _ => Except.error ()
    startTime := fun _ => 0
    endTime := fun _ => 0
    city := fun _ => CityResult.addressNotFound }

/-- Like `envW`, but iteration 2 receives a reply from the destination. -/
def envM : Env :=
  { envW with recv := fun k => if k = 2 then Except.ok "93.184.216.34" else Except.error () }

/-- Like `envW`, but iteration 1 receives a reply from an intermediate
router. -/
def envC : Env :=
  { envW with recv := fun k => if k = 1 then Except.ok "10.0.0.1" else Except.error () }

/-- Like `envW`, but the receiver bind of iteration 2 fails. -/
def envB : Env :=
  { envW with bindOk := fun k => k != 2 }

/-- A GeoIP database with one absent address, one address whose lookup
blows up, and a city entry for everything else. -/
def cityDbG : String → CityResult := fun a =>
  if a = "1.1.1.1" then CityResult.addressNotFound
  else if a = "2.2.2.2" then CityResult.otherError "boom"
  else CityResult.ok (some "Springfield") "Testland" "0.0" "0.0"

/-- Like `envW` with the database `cityDbG`. -/
def envG : Env := { envW with city := cityDbG }

/-- A replacement GeoIP database that always fails. -/
def fG : String → CityResult := fun _ => CityResult.otherError "database offline"

/-- The run of `tW` against `envW` (three timeouts). -/
def rWnm : RunResult := (tW.run envW).toOption.getD default

/-- The run of `tW` against `envM` (destination reached at TTL 2). -/
def rWm : RunResult := (tW.run envM).toOption.getD default

/-- The run of `tW` against `envC` (reply at TTL 1 from a router). -/
def rWc : RunResult := (tW.run envC).toOption.getD default

/-- The run of `tW` against `envB` (bind failure at iteration 2). -/
def rWb : RunResult := (tW.run envB).toOption.getD default

/-- The run of `tW0` against `envW` (hop limit below 1). -/
def rW0 : RunResult := (tW0.run envW).toOption.getD default

/-! ### General lemmas about the loop -/

/-- Rounding a non-negative rational with `pyRound2` gives a non-negative
result. -/
theorem pyRound2_nonneg (q : ℚ) (hq : 0 ≤ q) : 0 ≤ pyRound2 q := by
  unfold pyRound2
  have hs : (0 : ℚ) ≤ q * 100 := by positivity
  have hf : (0 : ℤ) ≤ Rat.floor (q * 100) := by
    rw [Rat.le_floor]
    exact_mod_cast hs
  have hbr : (0 : ℤ) ≤
      (if q * 100 - (Rat.floor (q * 100) : ℚ) < 1 / 2 then Rat.floor (q * 100)
       else if 1 / 2 < q * 100 - (Rat.floor (q * 100) : ℚ) then Rat.floor (q * 100) + 1
       else if Rat.floor (q * 100) % 2 = 0 then Rat.floor (q * 100)
       else Rat.floor (q * 100) + 1) := by
    split_ifs <;> omega
  have : (0 : ℚ) ≤
      ((if q * 100 - (Rat.floor (q * 100) : ℚ) < 1 / 2 then Rat.floor (q * 100)
        else if 1 / 2 < q * 100 - (Rat.floor (q * 100) : ℚ) then Rat.floor (q * 100) + 1
        else if Rat.floor (q * 100) % 2 = 0 then Rat.floor (q * 100)
        else Rat.floor (q * 100) + 1 : ℤ) : ℚ) := by
    exact_mod_cast hbr
  positivity

/-- Positional characterization of the loop trace: the record at position
`i` (0-based) of the list produced by `runLoop` starting at iteration
number `k` and TTL `ttl` is exactly the body of iteration `k + i` run at
TTL `ttl + i`. -/
theorem runLoop_getElem (t : Tracer) (env : Env) (dst_ip : String) :
    ∀ (fuel : Nat) (ttl : Int) (k : Nat) (i : Nat),
      i < ((runLoop t env dst_ip fuel ttl k).1).length →
      ((runLoop t env dst_ip fuel ttl k).1)[i]? =
        some (iteration t env (k + i) (ttl + i)) := by
  intro fuel
  induction fuel with
  | zero =>
      intro ttl k i h
      simp [runLoop] at h
  | succ fuel ih =>
      intro ttl k i h
      by_cases hb : env.bindOk k = true
      · by_cases hc : (iteration t env k ttl).captured = some dst_ip
        · have hi : i = 0 := by
            simp [runLoop, hb, hc] at h
            omega
          subst hi
          simp [runLoop, hb, hc]
        · by_cases hl : ttl + 1 > t.hops
          · have hi : i = 0 := by
              simp [runLoop, hb, hc, hl] at h
              omega
            subst hi
            simp [runLoop, hb, hc, hl]
          · cases i with
            | zero => simp [runLoop, hb, hc, hl]
            | succ j =>
                have hlen : j < ((runLoop t env dst_ip fuel (ttl + 1) (k + 1)).1).length := by
                  simp [runLoop, hb, hc, hl] at h
                  omega
                have hrec := ih (ttl + 1) (k + 1) j hlen
                have hcast : (ttl + 1) + (j : Int) = ttl + ((j : Int) + 1) := by ring
                simp only [runLoop, hb, if_true, hc, if_false, hl]
                simp only [if_neg hc, if_neg hl, List.getElem?_cons_succ]
                rw [hrec, hcast]
                norm_num
                congr 1
                omega
      · simp [runLoop, hb] at h

/-- With fuel left and a successful bind, the loop emits at least one
record: the iteration body always runs and prints before any break is
considered. -/
theorem runLoop_ne_nil (t : Tracer) (env : Env) (dst_ip : String)
    (fuel : Nat) (ttl : Int) (k : Nat) (hf : 1 ≤ fuel)
    (hb : env.bindOk k = true) :
    (runLoop t env dst_ip fuel ttl k).1 ≠ [] := by
  cases fuel with
  | zero => omega
  | succ fuel =>
      by_cases hc : (iteration t env k ttl).captured = some dst_ip
      · simp [runLoop, hb, hc]
      · by_cases hl : ttl + 1 > t.hops
        · simp [runLoop, hb, hc, hl]
        · simp [runLoop, hb, hc, hl]

/-- Every iteration that contributed a record to the trace had a
successful receiver bind: a failed bind stops the loop at once, so no
record is ever produced at or past a failed bind. -/
theorem runLoop_bind_true (t : Tracer) (env : Env) (dst_ip : String) :
    ∀ (fuel : Nat) (ttl : Int) (k : Nat) (j : Nat),
      j < ((runLoop t env dst_ip fuel ttl k).1).length →
      env.bindOk (k + j) = true := by
  intro fuel
  induction fuel with
  | zero =>
      intro ttl k j h
      simp [runLoop] at h
  | succ fuel ih =>
      intro ttl k j h
      by_cases hb : env.bindOk k = true
      · by_cases hc : (iteration t env k ttl).captured = some dst_ip
        · have hj : j = 0 := by
            simp [runLoop, hb, hc] at h
            omega
          subst hj
          simpa using hb
        · by_cases hl : ttl + 1 > t.hops
          · have hj : j = 0 := by
              simp [runLoop, hb, hc, hl] at h
              omega
            subst hj
            simpa using hb
          · cases j with
            | zero => simpa using hb
            | succ j' =>
                have hlen : j' < ((runLoop t env dst_ip fuel (ttl + 1) (k + 1)).1).length := by
                  simp [runLoop, hb, hc, hl] at h
                  omega
                have := ih (ttl + 1) (k + 1) j' hlen
                have hk : k + 1 + j' = k + (j' + 1) := by omega
                rwa [hk] at this
      · simp [runLoop, hb] at h

/-- When the loop ends in `bindError`, the failing bind is the one right
after the last emitted record: the `IOError` from `create_receiver`
aborted that very iteration before anything was sent or printed. -/
theorem runLoop_bindError_at (t : Tracer) (env : Env) (dst_ip : String) :
    ∀ (fuel : Nat) (ttl : Int) (k : Nat),
      (runLoop t env dst_ip fuel ttl k).2 = Terminal.bindError →
      env.bindOk (k + ((runLoop t env dst_ip fuel ttl k).1).length) = false := by
  intro fuel
  induction fuel with
  | zero =>
      intro ttl k h
      simp [runLoop] at h
  | succ fuel ih =>
      intro ttl k h
      by_cases hb : env.bindOk k = true
      · by_cases hc : (iteration t env k ttl).captured = some dst_ip
        · simp [runLoop, hb, hc] at h
        · by_cases hl : ttl + 1 > t.hops
          · simp [runLoop, hb, hc, hl] at h
          · have hterm : (runLoop t env dst_ip fuel (ttl + 1) (k + 1)).2 = Terminal.bindError := by
              simpa [runLoop, hb, hc, hl] using h
            have := ih (ttl + 1) (k + 1) hterm
            have hlen : ((runLoop t env dst_ip (fuel + 1) ttl k).1).length =
                ((runLoop t env dst_ip fuel (ttl + 1) (k + 1)).1).length + 1 := by
              simp [runLoop, hb, hc, hl]
            rw [hlen]
            have hk : k + (((runLoop t env dst_ip fuel (ttl + 1) (k + 1)).1).length + 1) =
                (k + 1) + ((runLoop t env dst_ip fuel (ttl + 1) (k + 1)).1).length := by omega
            rwa [hk]
      · have hb' : env.bindOk k = false := by
          cases hbb : env.bindOk k
          · rfl
          · exact absurd hbb hb
        simp [runLoop, hb', hb]

/-- Length and terminal state of the loop when every bind succeeds and no
emitted record captured the destination address: starting at TTL `ttl ≤
hops` with fuel at least `hops - ttl + 1`, the loop emits exactly
`hops - ttl + 1` records and stops with the hop limit exhausted. -/
theorem runLoop_length_no_match (t : Tracer) (env : Env) (dst_ip : String)
    (hbind : ∀ j, env.bindOk j = true) :
    ∀ (fuel : Nat) (ttl : Int) (k : Nat),
      ttl ≤ t.hops →
      (t.hops - ttl + 1).toNat ≤ fuel →
      (∀ it ∈ (runLoop t env dst_ip fuel ttl k).1, it.captured ≠ some dst_ip) →
      ((runLoop t env dst_ip fuel ttl k).1).length = (t.hops - ttl + 1).toNat ∧
        (runLoop t env dst_ip fuel ttl k).2 = Terminal.hopLimitExhausted := by
  intro fuel
  induction fuel with
  | zero =>
      intro ttl k hle hfuel _
      omega
  | succ fuel ih =>
      intro ttl k hle hfuel hnm
      have hb := hbind k
      by_cases hc : (iteration t env k ttl).captured = some dst_ip
      · exfalso
        refine hnm (iteration t env k ttl) ?_ hc
        cases fuel with
        | zero => simp [runLoop, hb, hc]
        | succ fuel => simp [runLoop, hb, hc]
      · by_cases hl : ttl + 1 > t.hops
        · have hEq : t.hops = ttl := by omega
          constructor
          · simp [runLoop, hb, hc, hl, hEq]
          · simp [runLoop, hb, hc, hl]
        · have hnm' : ∀ it ∈ (runLoop t env dst_ip fuel (ttl + 1) (k + 1)).1,
              it.captured ≠ some dst_ip := by
            intro it hit
            refine hnm it ?_
            simp [runLoop, hb, hc, hl]
            right
            exact hit
          have hrec := ih (ttl + 1) (k + 1) (by omega) (by omega) hnm'
          constructor
          · have : ((runLoop t env dst_ip (fuel + 1) ttl k).1).length =
                ((runLoop t env dst_ip fuel (ttl + 1) (k + 1)).1).length + 1 := by
              simp [runLoop, hb, hc, hl]
            rw [this, hrec.1]
            omega
          · have : (runLoop t env dst_ip (fuel + 1) ttl k).2 =
                (runLoop t env dst_ip fuel (ttl + 1) (k + 1)).2 := by
              simp [runLoop, hb, hc, hl]
            rw [this, hrec.2]

/-- A record whose captured address equals the destination address is the
last record of the trace, and the loop's terminal state is
`destinationReached`: the `break` at line 77 fires right after that hop's
line is printed, so nothing is emitted afterwards. -/
theorem runLoop_match_last (t : Tracer) (env : Env) (dst_ip : String) :
    ∀ (fuel : Nat) (ttl : Int) (k : Nat) (it : Iter),
      it ∈ (runLoop t env dst_ip fuel ttl k).1 →
      it.captured = some dst_ip →
      (runLoop t env dst_ip fuel ttl k).1.getLast? = some it ∧
        (runLoop t env dst_ip fuel ttl k).2 = Terminal.destinationReached := by
  intro fuel
  induction fuel with
  | zero =>
      intro ttl k it hit _
      simp [runLoop] at hit
  | succ fuel ih =>
      intro ttl k it hit hcap
      by_cases hb : env.bindOk k = true
      · by_cases hc : (iteration t env k ttl).captured = some dst_ip
        · have hone : (runLoop t env dst_ip (fuel + 1) ttl k).1 = [iteration t env k ttl] := by
            simp [runLoop, hb, hc]
          have hterm : (runLoop t env dst_ip (fuel + 1) ttl k).2 = Terminal.destinationReached := by
            simp [runLoop, hb, hc]
          rw [hone] at hit
          have : it = iteration t env k ttl := by simpa using hit
          subst this
          exact ⟨by rw [hone]; simp, hterm⟩
        · by_cases hl : ttl + 1 > t.hops
          · have hone : (runLoop t env dst_ip (fuel + 1) ttl k).1 = [iteration t env k ttl] := by
              simp [runLoop, hb, hc, hl]
            rw [hone] at hit
            have : it = iteration t env k ttl := by simpa using hit
            subst this
            exact absurd hcap hc
          · have hcons : (runLoop t env dst_ip (fuel + 1) ttl k).1 =
                iteration t env k ttl :: (runLoop t env dst_ip fuel (ttl + 1) (k + 1)).1 := by
              simp [runLoop, hb, hc, hl]
            have hterm : (runLoop t env dst_ip (fuel + 1) ttl k).2 =
                (runLoop t env dst_ip fuel (ttl + 1) (k + 1)).2 := by
              simp [runLoop, hb, hc, hl]
            rw [hcons] at hit
            rcases List.mem_cons.mp hit with hhead | htail
            · subst hhead
              exact absurd hcap hc
            · have hrec := ih (ttl + 1) (k + 1) it htail hcap
              constructor
              · rw [hcons]
                cases hrest : (runLoop t env dst_ip fuel (ttl + 1) (k + 1)).1 with
                | nil => rw [hrest] at hrec; simp at hrec
                | cons a as =>
                    rw [hrest] at hrec
                    rw [List.getLast?_cons_cons]
                    exact hrec.1
              · rw [hterm]
                exact hrec.2
      · simp [runLoop, hb] at hit

/-- Continuation: if the record at position `j` did not capture the
destination address, the next TTL still fits under the hop limit, the next
iteration's bind succeeds, and fuel remains, then the loop emits a record
at position `j + 1` as well — a timeout or unmatched reply never ends the
loop early. -/
theorem runLoop_next_exists (t : Tracer) (env : Env) (dst_ip : String) :
    ∀ (fuel : Nat) (ttl : Int) (k : Nat) (j : Nat)
      (hj : j < ((runLoop t env dst_ip fuel ttl k).1).length),
      ((runLoop t env dst_ip fuel ttl k).1)[j]?.map Iter.captured ≠ some (some dst_ip) →
      ttl + j + 1 ≤ t.hops →
      env.bindOk (k + j + 1) = true →
      j + 2 ≤ fuel →
      j + 1 < ((runLoop t env dst_ip fuel ttl k).1).length := by
  intro fuel
  induction fuel with
  | zero =>
      intro ttl k j hj _ _ _ hfuel
      omega
  | succ fuel ih =>
      intro ttl k j hj hnc hlim hb2 hfuel
      by_cases hb : env.bindOk k = true
      · by_cases hc : (iteration t env k ttl).captured = some dst_ip
        · have hone : (runLoop t env dst_ip (fuel + 1) ttl k).1 = [iteration t env k ttl] := by
            simp [runLoop, hb, hc]
          rw [hone] at hj hnc
          have hj0 : j = 0 := by simpa using hj
          subst hj0
          simp [hc] at hnc
        · by_cases hl : ttl + 1 > t.hops
          · have hj0 : j = 0 := by
              have := hj
              simp [runLoop, hb, hc, hl] at this
              omega
            subst hj0
            omega
          · have hcons : (runLoop t env dst_ip (fuel + 1) ttl k).1 =
                iteration t env k ttl :: (runLoop t env dst_ip fuel (ttl + 1) (k + 1)).1 := by
              simp [runLoop, hb, hc, hl]
            cases j with
            | zero =>
                have hne : (runLoop t env dst_ip fuel (ttl + 1) (k + 1)).1 ≠ [] := by
                  refine runLoop_ne_nil t env dst_ip fuel (ttl + 1) (k + 1) (by omega) ?_
                  have : k + 0 + 1 = k + 1 := by omega
                  rwa [this] at hb2
                rw [hcons]
                have : 0 < ((runLoop t env dst_ip fuel (ttl + 1) (k + 1)).1).length :=
                  List.length_pos.mpr hne
                simp
                omega
            | succ j' =>
                have hj' : j' < ((runLoop t env dst_ip fuel (ttl + 1) (k + 1)).1).length := by
                  rw [hcons] at hj
                  simpa using hj
                have hnc' : ((runLoop t env dst_ip fuel (ttl + 1) (k + 1)).1)[j']?.map
                    Iter.captured ≠ some (some dst_ip) := by
                  rw [hcons] at hnc
                  simpa using hnc
                have hrec := ih (ttl + 1) (k + 1) j' hj' hnc'
                  (by omega)
                  (by have hkk : k + 1 + j' + 1 = k + (j' + 1) + 1 := by omega
                      rw [hkk]
                      exact hb2)
                  (by omega)
                rw [hcons]
                simp
                omega
      · simp [runLoop, hb] at hj

/-- The GeoIP database influences nothing but the location text: replacing
`Env.city` leaves every iteration's TTL and captured address, and the
loop's terminal state, unchanged. -/
theorem runLoop_city_irrelevant (t : Tracer) (env : Env)
    (f : String → CityResult) (dst_ip : String) :
    ∀ (fuel : Nat) (ttl : Int) (k : Nat),
      ((runLoop t { env with city := f } dst_ip fuel ttl k).1.map
          (fun it => (it.ttlSet, it.captured)) =
        (runLoop t env dst_ip fuel ttl k).1.map
          (fun it => (it.ttlSet, it.captured))) ∧
      (runLoop t { env with city := f } dst_ip fuel ttl k).2 =
        (runLoop t env dst_ip fuel ttl k).2 := by
  intro fuel
  induction fuel with
  | zero =>
      intro ttl k
      simp [runLoop]
  | succ fuel ih =>
      intro ttl k
      have hcap : (iteration t { env with city := f } k ttl).captured =
          (iteration t env k ttl).captured := by
        simp [iteration, captureAt]
      have httl : (iteration t { env with city := f } k ttl).ttlSet =
          (iteration t env k ttl).ttlSet := by
        simp [iteration]
      by_cases hb : env.bindOk k = true
      · have hb' : ({ env with city := f } : Env).bindOk k = true := hb
        by_cases hc : (iteration t env k ttl).captured = some dst_ip
        · have hc' : (iteration t { env with city := f } k ttl).captured = some dst_ip := by
            rw [hcap]; exact hc
          simp [runLoop, hb, hb', hc, hc', hcap, httl]
        · have hc' : ¬ (iteration t { env with city := f } k ttl).captured = some dst_ip := by
            rw [hcap]; exact hc
          by_cases hl : ttl + 1 > t.hops
          · simp [runLoop, hb, hb', hc, hc', hl, hcap, httl]
          · have hrec := ih (ttl + 1) (k + 1)
            simp [runLoop, hb, hb', hc, hc', hl, hcap, httl]
            exact hrec
      · have hbf : env.bindOk k = false := by
          cases hbb : env.bindOk k
          · rfl
          · exact absurd hbb hb
        have hbf' : ({ env with city := f } : Env).bindOk k = false := hbf
        simp [runLoop, hbf, hbf']

/-- Decomposition of a successful `Tracer.run`: name resolution succeeded,
and the result fields come from the loop started at `self.ttl` with
iteration number 1. -/
theorem run_eq_ok (t : Tracer) (env : Env) (r : RunResult)
    (hr : t.run env = Except.ok r) :
    env.gethostbyname t.dst = some r.dst_ip ∧
      r.iters = (runLoop t env r.dst_ip (max t.hops.toNat 1) t.ttl 1).1 ∧
      r.terminal = (runLoop t env r.dst_ip (max t.hops.toNat 1) t.ttl 1).2 := by
  unfold Tracer.run at hr
  cases hg : env.gethostbyname t.dst with
  | none => rw [hg] at hr; exact absurd hr (by simp)
  | some dst_ip =>
      rw [hg] at hr
      simp only [Except.ok.injEq] at hr
      subst hr
      exact ⟨rfl, rfl, rfl⟩

/-- The record at position `i` (0-based) of a successful run is the body of
iteration `i + 1`, run at TTL `self.ttl + i`. -/
theorem run_iters_getElem (t : Tracer) (env : Env) (r : RunResult)
    (hr : t.run env = Except.ok r) (i : Nat) (hi : i < r.iters.length) :
    r.iters[i] = iteration t env (1 + i) (t.ttl + i) := by
  obtain ⟨-, hiters, -⟩ := run_eq_ok t env r hr
  have hi' : i < ((runLoop t env r.dst_ip (max t.hops.toNat 1) t.ttl 1).1).length := by
    rw [← hiters]; exact hi
  have h3 := runLoop_getElem t env r.dst_ip (max t.hops.toNat 1) t.ttl 1 i hi'
  have h4 : r.iters[i]? = some (iteration t env (1 + i) (t.ttl + i)) := by
    rw [hiters]; exact h3
  rw [List.getElem?_eq_getElem hi] at h4
  exact Option.some.inj h4

/-! ### C1 -/

/-- C1 is false on the code: `sender.sendto(b'', (self.dst, self.port))`
(src/traceroute.py line 60) passes the destination *hostname* `self.dst`,
not the address `dst_ip` returned by the one-time `gethostbyname` call.
Concretely, probing `example.test` (which resolves to `93.184.216.34`),
not every sendto destination equals the pair (resolved address, port) —
in fact none does. -/
theorem sendto_dest_misses_resolved_ip :
    (tW.run envW).toOption.map
        (fun r => r.iters.all fun it => it.sentDest == (r.dst_ip, tW.port)) =
      some false := by
  decide

/-- C1 (amended): in every iteration of the probing loop the probe
datagram's `sendto` destination is exactly the pair (destination
*hostname*, identification port) — `(self.dst, self.port)`.  The port
component always equals the session's fixed identification port, but the
host component is the unresolved hostname, which the operating system
resolves again at each send; it coincides with the one-time resolved
address only when `self.dst` is itself a literal address (or resolution is
stable and the OS returns the same address). -/
theorem sendto_dest_eq_hostname_port (t : Tracer) (env : Env) (r : RunResult)
    (hr : t.run env = Except.ok r) (i : Nat) (hi : i < r.iters.length) :
    r.iters[i].sentDest = (t.dst, t.port) := by
  rw [run_iters_getElem t env r hr i hi]
  simp [iteration]

/-- Witness for `sendto_dest_eq_hostname_port` at the concrete session
`tW`/`envW`. -/
theorem sendto_dest_eq_hostname_port_wit :
    (rWnm.iters.get ⟨0, by decide⟩).sentDest = (tW.dst, tW.port) :=
  sendto_dest_eq_hostname_port tW envW rWnm rfl 0 (by decide)

/-! ### C2 -/

/-- C2: if the record at position `i` of a successful run captured the
resolved destination address, then its hop-result line was emitted (a
reply line carrying that address, a TTL equal to the TTL probed, a
latency and a location), it is the last line of the run (`i` is the last
position, so no hop result for any larger TTL is emitted), and the loop
terminated in the `destinationReached` state: the equality check at
line 76 runs only after the `print` at line 75. -/
theorem dest_match_emits_then_terminates (t : Tracer) (env : Env) (r : RunResult)
    (hr : t.run env = Except.ok r) (i : Nat) (hi : i < r.iters.length)
    (hcap : r.iters[i].captured = some r.dst_ip) :
    r.iters.getLast? = some (r.iters[i]) ∧
      r.terminal = Terminal.destinationReached ∧
      i + 1 = r.iters.length ∧
      r.iters[i].line.addrOf = some r.dst_ip ∧
      r.iters[i].line.ttlOf = r.iters[i].ttlSet ∧
      r.iters[i].line.rttOf.isSome = true ∧
      r.iters[i].line.locOf.isSome = true := by
  obtain ⟨-, hiters, hterm⟩ := run_eq_ok t env r hr
  have heq := run_iters_getElem t env r hr i hi
  have hmem : r.iters[i] ∈ r.iters := List.getElem_mem hi
  have hml := runLoop_match_last t env r.dst_ip (max t.hops.toNat 1) t.ttl 1
    (r.iters[i]) (by rw [← hiters]; exact hmem) hcap
  have hlast : r.iters.getLast? = some (r.iters[i]) := by
    have hsw : r.iters.getLast? =
        (runLoop t env r.dst_ip (max t.hops.toNat 1) t.ttl 1).1.getLast? := by
      rw [hiters]
    rw [hsw]
    exact hml.1
  have hcapAt : captureAt env (1 + i) = some r.dst_ip := by
    have h := hcap
    rw [heq] at h
    simpa [iteration] using h
  refine ⟨hlast, by rw [hterm]; exact hml.2, ?_, ?_, ?_, ?_, ?_⟩
  · have hpos : 0 < r.iters.length := by omega
    have hlast2 : r.iters.getLast? = some (r.iters[r.iters.length - 1]) := by
      rw [List.getLast?_eq_getElem?, List.getElem?_eq_getElem (by omega)]
    have h2 : r.iters[r.iters.length - 1] = r.iters[i] := by
      rw [hlast2] at hlast
      exact Option.some.inj hlast
    have h3 := run_iters_getElem t env r hr (r.iters.length - 1) (by omega)
    have h5 : iteration t env (1 + (r.iters.length - 1))
          (t.ttl + ((r.iters.length - 1 : ℕ) : ℤ)) =
        iteration t env (1 + i) (t.ttl + i) := by
      rw [← h3, ← heq]
      exact h2
    have h6 := congrArg Iter.receiverId h5
    simp only [iteration] at h6
    omega
  · rw [heq]
    simp [iteration, hcapAt, HopLine.addrOf]
  · rw [heq]
    simp [iteration, hcapAt, HopLine.ttlOf]
  · rw [heq]
    simp [iteration, hcapAt, HopLine.rttOf]
  · rw [heq]
    simp [iteration, hcapAt, HopLine.locOf]

/-- Witness for `dest_match_emits_then_terminates`: against `envM` the
destination replies at TTL 2 and the run stops there. -/
theorem dest_match_emits_then_terminates_wit :
    rWm.iters.getLast? = some (rWm.iters.get ⟨1, by decide⟩) ∧
      rWm.terminal = Terminal.destinationReached ∧
      1 + 1 = rWm.iters.length ∧
      (rWm.iters.get ⟨1, by decide⟩).line.addrOf = some rWm.dst_ip ∧
      (rWm.iters.get ⟨1, by decide⟩).line.ttlOf = (rWm.iters.get ⟨1, by decide⟩).ttlSet ∧
      (rWm.iters.get ⟨1, by decide⟩).line.rttOf.isSome = true ∧
      (rWm.iters.get ⟨1, by decide⟩).line.locOf.isSome = true :=
  dest_match_emits_then_terminates tW envM rWm rfl 1 (by decide) (by decide)

/-! ### C3 -/

/-- C3: for a session with `hops = N ≥ 1` (and `self.ttl = 1` as set by
the constructor) whose binds all succeed, if no emitted record captured
the resolved destination address then the run emits exactly `N` hop
results, the record at position `i` was probed at TTL `i + 1` (so TTLs
are 1, 2, ... in strictly increasing order with no gaps, the last one
being `N`), and the loop ends in the hop-limit-exhausted state. -/
theorem no_match_emits_exactly_hops_results (t : Tracer) (env : Env) (r : RunResult)
    (hr : t.run env = Except.ok r) (ht : t.ttl = 1) (hN : 1 ≤ t.hops)
    (hbind : ∀ j, env.bindOk j = true)
    (hnm : ∀ it ∈ r.iters, it.captured ≠ some r.dst_ip) :
    r.iters.length = t.hops.toNat ∧
      r.terminal = Terminal.hopLimitExhausted ∧
      ∀ i (hi : i < r.iters.length), r.iters[i].ttlSet = (i : Int) + 1 := by
  obtain ⟨-, hiters, hterm⟩ := run_eq_ok t env r hr
  have hnm' : ∀ it ∈ (runLoop t env r.dst_ip (max t.hops.toNat 1) t.ttl 1).1,
      it.captured ≠ some r.dst_ip := by
    rw [← hiters]; exact hnm
  have hlem := runLoop_length_no_match t env r.dst_ip hbind (max t.hops.toNat 1) t.ttl 1
    (by omega) (by omega) hnm'
  refine ⟨?_, ?_, ?_⟩
  · rw [hiters, hlem.1]
    omega
  · rw [hterm, hlem.2]
  · intro i hi
    rw [run_iters_getElem t env r hr i hi]
    simp only [iteration]
    omega

/-- Witness for `no_match_emits_exactly_hops_results`: against `envW`
every probe times out and the run emits lines for TTLs 1, 2, 3. -/
theorem no_match_emits_exactly_hops_results_wit :
    rWnm.iters.length = tW.hops.toNat ∧
      rWnm.terminal = Terminal.hopLimitExhausted ∧
      (rWnm.iters.get ⟨2, by decide⟩).ttlSet = (2 : Int) + 1 := by
  have h := no_match_emits_exactly_hops_results tW envW rWnm rfl rfl (by decide)
    (fun _ => rfl) (by decide)
  exact ⟨h.1, h.2.1, h.2.2 2 (by decide)⟩

/-! ### C4 -/

/-- C4: if the `recvfrom` of the iteration at position `j` raised a
`socket.error` (timeout included), no address is captured for that hop,
the `IOError`-free path prints the `'{:<4} *'` no-reply line for its TTL,
and — provided the next TTL still fits under the hop limit and the next
bind succeeds — the loop goes on to probe the next TTL: the error is
absorbed inside the loop body, not propagated. -/
theorem recv_error_yields_no_reply_and_continues (t : Tracer) (env : Env) (r : RunResult)
    (hr : t.run env = Except.ok r) (ht : t.ttl = 1)
    (j : Nat) (hj : j < r.iters.length)
    (herr : env.recv (j + 1) = Except.error ())
    (hlim : (j : Int) + 2 ≤ t.hops)
    (hbind : env.bindOk (j + 2) = true) :
    r.iters[j].captured = none ∧
      r.iters[j].line = HopLine.noReply ((j : Int) + 1) ∧
      j + 1 < r.iters.length := by
  obtain ⟨-, hiters, -⟩ := run_eq_ok t env r hr
  have heq := run_iters_getElem t env r hr j hj
  have hcapAt : captureAt env (1 + j) = none := by
    have hjj : 1 + j = j + 1 := by omega
    rw [hjj]
    simp [captureAt, herr]
  have httl : t.ttl + (j : Int) = (j : Int) + 1 := by omega
  refine ⟨?_, ?_, ?_⟩
  · rw [heq]
    simp [iteration, hcapAt]
  · rw [heq]
    simp [iteration, hcapAt, httl]
  · have hj' : j < ((runLoop t env r.dst_ip (max t.hops.toNat 1) t.ttl 1).1).length := by
      rw [← hiters]; exact hj
    have hnc : ((runLoop t env r.dst_ip (max t.hops.toNat 1) t.ttl 1).1)[j]?.map
        Iter.captured ≠ some (some r.dst_ip) := by
      rw [runLoop_getElem t env r.dst_ip (max t.hops.toNat 1) t.ttl 1 j hj']
      simp [iteration, hcapAt]
    have hnext := runLoop_next_exists t env r.dst_ip (max t.hops.toNat 1) t.ttl 1 j hj' hnc
      (by omega) (by have hjj : 1 + j + 1 = j + 2 := by omega
                     rw [hjj]; exact hbind)
      (by omega)
    rw [hiters]
    exact hnext

/-- Witness for `recv_error_yields_no_reply_and_continues`: iteration 1 of
`envW` times out, its line is `1    *`, and TTL 2 is still probed. -/
theorem recv_error_yields_no_reply_and_continues_wit :
    (rWnm.iters.get ⟨0, by decide⟩).captured = none ∧
      (rWnm.iters.get ⟨0, by decide⟩).line = HopLine.noReply ((0 : Int) + 1) ∧
      0 + 1 < rWnm.iters.length :=
  recv_error_yields_no_reply_and_continues tW envW rWnm rfl rfl 0 (by decide) rfl
    (by decide) rfl

/-! ### C5 -/

/-- C5: in every recorded iteration both the receiving and the sending
endpoint were closed before the iteration ended (the `finally` block at
lines 68-70 runs on every exit path of the `try`, including the
`socket.error` path), and the endpoints of distinct iterations are
distinct objects — each iteration's sockets are freshly constructed by
`create_receiver`/`create_sender` and never reused later. -/
theorem endpoints_released_and_fresh_each_iteration (t : Tracer) (env : Env)
    (r : RunResult) (hr : t.run env = Except.ok r) :
    (∀ i (hi : i < r.iters.length),
        r.iters[i].receiverClosed = true ∧ r.iters[i].senderClosed = true ∧
        r.iters[i].receiverId = i + 1 ∧ r.iters[i].senderId = i + 1) ∧
      (∀ i j (hi : i < r.iters.length) (hj : j < r.iters.length), i ≠ j →
        r.iters[i].receiverId ≠ r.iters[j].receiverId ∧
        r.iters[i].senderId ≠ r.iters[j].senderId) := by
  have hpos : ∀ i (hi : i < r.iters.length),
      r.iters[i].receiverClosed = true ∧ r.iters[i].senderClosed = true ∧
      r.iters[i].receiverId = i + 1 ∧ r.iters[i].senderId = i + 1 := by
    intro i hi
    rw [run_iters_getElem t env r hr i hi]
    refine ⟨rfl, rfl, ?_, ?_⟩ <;> (simp only [iteration]; omega)
  refine ⟨hpos, ?_⟩
  intro i j hi hj hne
  have h1 := hpos i hi
  have h2 := hpos j hj
  constructor
  · rw [h1.2.2.1, h2.2.2.1]
    omega
  · rw [h1.2.2.2, h2.2.2.2]
    omega

/-- Witness for `endpoints_released_and_fresh_each_iteration` at the
concrete run `rWnm`. -/
theorem endpoints_released_and_fresh_each_iteration_wit :
    ((rWnm.iters.get ⟨0, by decide⟩).receiverClosed = true ∧
      (rWnm.iters.get ⟨0, by decide⟩).senderClosed = true ∧
      (rWnm.iters.get ⟨0, by decide⟩).receiverId = 0 + 1 ∧
      (rWnm.iters.get ⟨0, by decide⟩).senderId = 0 + 1) ∧
      ((rWnm.iters.get ⟨0, by decide⟩).receiverId ≠
          (rWnm.iters.get ⟨1, by decide⟩).receiverId ∧
        (rWnm.iters.get ⟨0, by decide⟩).senderId ≠
          (rWnm.iters.get ⟨1, by decide⟩).senderId) := by
  have h := endpoints_released_and_fresh_each_iteration tW envW rWnm rfl
  exact ⟨h.1 0 (by decide), h.2 0 1 (by decide) (by decide) (by decide)⟩

/-! ### C6 -/

/-- C6: a receiver bind failure is fatal and unrecoverable.  First part:
every iteration that did emit a hop result had a successful bind, so the
loop never continues past — and never retries — a failed bind.  Second
part: when the run ended with the `bindError` terminal state (the
`IOError` raised at line 103 propagating out of `run`), the failing bind
is the one attempted right after the last emitted result, and it was
attempted exactly once. -/
theorem bind_failure_fatal_no_retry (t : Tracer) (env : Env) (r : RunResult)
    (hr : t.run env = Except.ok r) :
    (∀ j (hj : j < r.iters.length), env.bindOk (j + 1) = true) ∧
      (r.terminal = Terminal.bindError →
        env.bindOk (r.iters.length + 1) = false) := by
  obtain ⟨-, hiters, hterm⟩ := run_eq_ok t env r hr
  constructor
  · intro j hj
    have hj' : j < ((runLoop t env r.dst_ip (max t.hops.toNat 1) t.ttl 1).1).length := by
      rw [← hiters]; exact hj
    have := runLoop_bind_true t env r.dst_ip (max t.hops.toNat 1) t.ttl 1 j hj'
    have hjj : 1 + j = j + 1 := by omega
    rwa [hjj] at this
  · intro hfail
    have hfail' : (runLoop t env r.dst_ip (max t.hops.toNat 1) t.ttl 1).2 =
        Terminal.bindError := by
      rw [← hterm]; exact hfail
    have := runLoop_bindError_at t env r.dst_ip (max t.hops.toNat 1) t.ttl 1 hfail'
    rw [hiters]
    have hjj : 1 + ((runLoop t env r.dst_ip (max t.hops.toNat 1) t.ttl 1).1).length =
        ((runLoop t env r.dst_ip (max t.hops.toNat 1) t.ttl 1).1).length + 1 := by omega
    rwa [hjj] at this

/-- Witness for `bind_failure_fatal_no_retry`: against `envB` the bind of
iteration 2 fails, the run ends in `bindError` after the single result of
iteration 1, whose bind succeeded. -/
theorem bind_failure_fatal_no_retry_wit :
    envB.bindOk (0 + 1) = true ∧ envB.bindOk (rWb.iters.length + 1) = false := by
  have h := bind_failure_fatal_no_retry tW envB rWb rfl
  exact ⟨h.1 0 (by decide), h.2 (by decide)⟩

/-! ### C7 -/

/-- C7: geolocation lookup outcomes are absorbed into strings and never
disturb the probing loop.  `get_geoip` is a total function into `String`
(no exception escapes it into `run`): an address absent from the database
yields the fixed unknown-location text, and any other lookup failure
yields an error-description string embedded in the hop output.  Moreover
the GeoIP database is purely cosmetic: replacing it wholesale changes
neither the resolved address, nor the terminal state (destination-reached
detection included), nor any iteration's TTL or captured address. -/
theorem geoip_failure_nonfatal_and_cosmetic (t : Tracer) (env : Env)
    (f : String → CityResult) (a1 a2 e : String)
    (h1 : env.city a1 = CityResult.addressNotFound)
    (h2 : env.city a2 = CityResult.otherError e) :
    get_geoip env.city a1 = "Localização desconhecida" ∧
      get_geoip env.city a2 = "Erro ao obter localização: " ++ e ∧
      (t.run { env with city := f }).map RunResult.skeleton =
        (t.run env).map RunResult.skeleton := by
  refine ⟨?_, ?_, ?_⟩
  · simp [get_geoip, h1]
  · simp only [get_geoip, h2]
    show "Erro ao obter localização: " ++ e ++ "" = "Erro ao obter localização: " ++ e
    simp
  · unfold Tracer.run
    cases hg : env.gethostbyname t.dst with
    | none =>
        have hg' : ({ env with city := f } : Env).gethostbyname t.dst = none := hg
        simp [hg, hg', Except.map]
    | some dst_ip =>
        have hg' : ({ env with city := f } : Env).gethostbyname t.dst = some dst_ip := hg
        have hloop := runLoop_city_irrelevant t env f dst_ip (max t.hops.toNat 1) t.ttl 1
        simp only [hg, hg', Except.map]
        simp only [RunResult.skeleton]
        rw [hloop.1, hloop.2]

/-- Witness for `geoip_failure_nonfatal_and_cosmetic` at the database
`cityDbG` and the always-failing replacement `fG`. -/
theorem geoip_failure_nonfatal_and_cosmetic_wit :
    get_geoip envG.city "1.1.1.1" = "Localização desconhecida" ∧
      get_geoip envG.city "2.2.2.2" = "Erro ao obter localização: " ++ "boom" ∧
      (tW.run { envG with city := fG }).map RunResult.skeleton =
        (tW.run envG).map RunResult.skeleton :=
  geoip_failure_nonfatal_and_cosmetic tW envG fG "1.1.1.1" "2.2.2.2" "boom"
    (by decide) (by decide)

/-! ### C8 -/

/-- C8: the record at position `i` of a successful run carries a
round-trip time on its line exactly when an address was captured for that
hop; when present it equals `round((end_time - start_time) * 1000, 2)`
for that iteration's two clock readings, and — provided the clock never
runs backwards between the two readings — it is non-negative. -/
theorem rtt_present_iff_captured (t : Tracer) (env : Env) (r : RunResult)
    (hr : t.run env = Except.ok r)
    (hclock : ∀ j, env.startTime j ≤ env.endTime j)
    (i : Nat) (hi : i < r.iters.length) :
    r.iters[i].line.rttOf =
        r.iters[i].captured.map
          (fun _ => pyRound2 ((env.endTime (i + 1) - env.startTime (i + 1)) * 1000)) ∧
      0 ≤ r.iters[i].line.rttOf.getD 0 := by
  have heq := run_iters_getElem t env r hr i hi
  have hii : 1 + i = i + 1 := by omega
  cases hca : captureAt env (1 + i) with
  | none =>
      constructor
      · rw [heq]
        simp [iteration, hca, HopLine.rttOf]
      · rw [heq]
        simp [iteration, hca, HopLine.rttOf]
  | some a =>
      have hnn : 0 ≤ pyRound2 ((env.endTime (1 + i) - env.startTime (1 + i)) * 1000) := by
        refine pyRound2_nonneg _ ?_
        have := hclock (1 + i)
        have hsub : 0 ≤ env.endTime (1 + i) - env.startTime (1 + i) := by linarith
        positivity
      constructor
      · rw [heq]
        rw [← hii]
        simp [iteration, hca, HopLine.rttOf]
      · rw [heq]
        simp [iteration, hca, HopLine.rttOf]
        exact hnn

/-- Witness for `rtt_present_iff_captured`: against `envC` the router at
TTL 1 replies, so position 0 carries a round-trip time. -/
theorem rtt_present_iff_captured_wit :
    (rWc.iters.get ⟨0, by decide⟩).line.rttOf =
        (rWc.iters.get ⟨0, by decide⟩).captured.map
          (fun _ => pyRound2 ((envC.endTime (0 + 1) - envC.startTime (0 + 1)) * 1000)) ∧
      0 ≤ (rWc.iters.get ⟨0, by decide⟩).line.rttOf.getD 0 :=
  rtt_present_iff_captured tW envC rWc rfl (fun _ => le_refl 0) 0 (by decide)

/-! ### C9 -/

/-- C9: the identification port chosen at construction (`self.port =
random.choice(range(33434, 33535))`, lines 23-24) is fixed for the whole
session: the session object built by the constructor carries exactly the
chosen port, every iteration's receiving endpoint is bound to that same
port (line 101), and every outbound probe uses that same port as its
destination port (line 60), for every position of the run's trace — the
`Tracer` embedding is immutable and `run` never writes to `port`. -/
theorem identification_port_fixed_per_session (dst : String) (hops : Int)
    (port : Nat) (env : Env) (r : RunResult)
    (hr : (Tracer.init dst hops port).run env = Except.ok r)
    (i : Nat) (hi : i < r.iters.length) :
    (Tracer.init dst hops port).port = port ∧
      r.iters[i].bindPort = port ∧
      r.iters[i].sentDest.2 = port := by
  refine ⟨rfl, ?_, ?_⟩ <;>
    (rw [run_iters_getElem (Tracer.init dst hops port) env r hr i hi]
     simp [iteration, Tracer.init])

/-- Witness for `identification_port_fixed_per_session` at the concrete
session on port 33434. -/
theorem identification_port_fixed_per_session_wit :
    (Tracer.init "example.test" 3 33434).port = 33434 ∧
      (rWnm.iters.get ⟨0, by decide⟩).bindPort = 33434 ∧
      (rWnm.iters.get ⟨0, by decide⟩).sentDest.2 = 33434 :=
  identification_port_fixed_per_session "example.test" 3 33434 envW rWnm rfl 0 (by decide)

/-! ### C10 -/

/-- C10: for a session whose maximum hop count is below 1 (hops = 0 or
negative, with `self.ttl = 1` from the constructor and a successful first
bind), the loop still performs one full iteration: exactly one hop result
is emitted, probed at TTL 1 and printed with TTL 1, because the
`self.ttl > self.hops` check at line 83 runs only after the increment at
line 81 at the end of the first iteration. -/
theorem hops_lt_one_still_probes_ttl_one (t : Tracer) (env : Env) (r : RunResult)
    (hr : t.run env = Except.ok r) (ht : t.ttl = 1)
    (hhops : t.hops < 1) (hbind : env.bindOk 1 = true) :
    r.iters.length = 1 ∧
      r.iters[0]?.map Iter.ttlSet = some 1 ∧
      r.iters[0]?.map (fun it => it.line.ttlOf) = some 1 := by
  obtain ⟨-, hiters, -⟩ := run_eq_ok t env r hr
  have hfuel : max t.hops.toNat 1 = 1 := by omega
  have hl : ¬ t.ttl + 1 ≤ t.hops := by omega
  have hlen : r.iters.length = 1 := by
    rw [hiters, hfuel]
    by_cases hc : (iteration t env 1 t.ttl).captured = some r.dst_ip
    · simp [runLoop, hbind, hc]
    · simp [runLoop, hbind, hc, hl]
  refine ⟨hlen, ?_, ?_⟩
  · rw [List.getElem?_eq_getElem (by omega),
      run_iters_getElem t env r hr 0 (by omega)]
    simp [iteration, ht]
  · rw [List.getElem?_eq_getElem (by omega),
      run_iters_getElem t env r hr 0 (by omega)]
    cases hca : captureAt env (1 + 0) with
    | none => simp [iteration, hca, HopLine.ttlOf, ht]
    | some a => simp [iteration, hca, HopLine.ttlOf, ht]

/-- Witness for `hops_lt_one_still_probes_ttl_one`: with hop limit 0 the
run still probes and reports TTL 1. -/
theorem hops_lt_one_still_probes_ttl_one_wit :
    rW0.iters.length = 1 ∧
      rW0.iters[0]?.map Iter.ttlSet = some 1 ∧
      rW0.iters[0]?.map (fun it => it.line.ttlOf) = some 1 :=
  hops_lt_one_still_probes_ttl_one tW0 envW rW0 rfl rfl (by decide) rfl
